import Mathlib

/-!
# Verification of mod_xsendfile (src/mod_xsendfile.c)

Shallow embedding of the mod_xsendfile Apache module.  Pure logic
(configuration merge, header scanning, root-list construction, the
resolution loop, the compression decision logic and the compressor exit
protocol) is translated directly from the C source.  External
collaborators (APR library calls such as `apr_filepath_merge`,
`ap_unescape_url`, `stat`, `creat`/`fork`/`waitpid`/`rename`,
`ap_get_token`) are modelled as oracle parameters collected in
environment structures: each oracle describes the outcome the external
world would give for this request, and the embedded code's control flow
around those outcomes follows the C source line by line.
-/

set_option autoImplicit false

namespace XSendfile

/-! ## Configuration (`xsendfile_conf_t`, `xsendfile_path_t`) -/

/-- The `xsendfile_conf_active_t` enumeration: tri-state configuration flag. -/
inductive Tri where
  | unset
  | enabled
  | disabled
deriving DecidableEq, Repr

/-- The `xsendfile_path_t` record: one allowed root with its delete permission. -/
structure XPath where
  path : String
  allowFileDelete : Bool
deriving DecidableEq, Repr

/-- The `xsendfile_conf_t` record: the module configuration for one scope. -/
structure Conf where
  enabled : Tri
  ignoreETag : Tri
  ignoreLM : Tri
  unescape : Tri
  paths : List XPath
deriving DecidableEq, Repr

/-- The `XSENDFILE_CFLAG` macro:
`conf->x = overrides->x != XSENDFILE_UNSET ? overrides->x : base->x`. -/
def cflag (overrides base : Tri) : Tri :=
  if overrides ≠ Tri.unset then overrides else base

/-- The function `xsendfile_config_merge(p, basev, overridesv)`: merges the per-server
(base/parent) and per-directory (overrides/child) configurations.  The
path list is `apr_array_append(p, overrides->paths, base->paths)`, i.e.
the child's roots followed by the parent's roots. -/
def xsendfile_config_merge (base overrides : Conf) : Conf :=
  { enabled := cflag overrides.enabled base.enabled
    ignoreETag := cflag overrides.ignoreETag base.ignoreETag
    ignoreLM := cflag overrides.ignoreLM base.ignoreLM
    unescape := cflag overrides.unescape base.unescape
    paths := overrides.paths ++ base.paths }

/-! ## Status codes -/

/-- Apache `OK` / APR `APR_SUCCESS`. -/
def STATUS_OK : Nat := 0

/-- The status `APR_EBADPATH` (`APR_OS_START_ERROR + 24`). -/
def APR_EBADPATH : Nat := 20024

def HTTP_OK : Nat := 200
def HTTP_NOT_FOUND : Nat := 404
def HTTP_FORBIDDEN : Nat := 403
def HTTP_INTERNAL_SERVER_ERROR : Nat := 500

/-! ## Path resolution (`ap_xsendfile_get_filepath`, lines 511-577)

`apr_filepath_merge` is an external APR call; it is modelled by an
oracle `m : String → String → Except Nat String` where `Except.ok p`
stands for the call returning `OK` with merged path `p` and
`Except.error s` for a non-`OK` status `s` (e.g. the containment
violation statuses). -/

/-- Outcome of the resolution loop.  `undef` records the C undefined
behaviour of `ap_xsendfile_get_filepath`: the local `apr_status_t rv`
is declared without an initialiser and, when every root is skipped by
the `shouldDeleteFile && !allowFileDelete` test, the function reads
`rv` without ever having assigned it. -/
inductive ResolveResult where
  | ok (path : String)
  | fail (status : Nat)
  | undef
deriving DecidableEq, Repr

/-- Construction of `patharr` (lines 521-541): in non-delete mode the
implicit root derived from the request's own directory
(`ap_xsendfile_get_orginal_path`, modelled by the oracle `origRoot`)
is prepended with `allowFileDelete = 0`; the configured roots follow.
In delete (temporary) mode `patharr` is exactly `conf->paths`. -/
def candidateRoots (origRoot : Option String) (paths : List XPath)
    (shouldDeleteFile : Bool) : List XPath :=
  if shouldDeleteFile = false then
    match origRoot with
    | some root => ⟨root, false⟩ :: paths
    | none => paths
  else paths

/-- The `for` loop of lines 548-570.  `acc` is the current value of the
local variable `rv`: `none` while `rv` is still uninitialised, `some s`
once a failed `apr_filepath_merge` has assigned the non-`OK` status
`s`.  Falling off the end of the list with `acc = none` is the
uninitialised read (undefined behaviour). -/
def resolveLoop (m : String → String → Except Nat String) (file : String)
    (shouldDeleteFile : Bool) : List XPath → Option Nat → ResolveResult
  | [], none => ResolveResult.undef
  | [], some s => ResolveResult.fail s
  | p :: rest, acc =>
    if shouldDeleteFile && !p.allowFileDelete then
      resolveLoop m file shouldDeleteFile rest acc
    else
      match m p.path file with
      | Except.ok merged => ResolveResult.ok merged
      | Except.error s => resolveLoop m file shouldDeleteFile rest (some s)

/-- The resolution part of `ap_xsendfile_get_filepath` (lines 511-572):
candidate-root construction, the `nelts == 0` fail-closed check
returning `APR_EBADPATH`, and the first-match loop.  (The subsequent
compression substitution of line 574 is layered on top in
`ap_xsendfile_get_filepath` below.) -/
def xsendfile_resolve (m : String → String → Except Nat String)
    (origRoot : Option String) (conf : Conf) (file : String)
    (shouldDeleteFile : Bool) : ResolveResult :=
  let patharr := candidateRoots origRoot conf.paths shouldDeleteFile
  if patharr.length = 0 then ResolveResult.fail APR_EBADPATH
  else resolveLoop m file shouldDeleteFile patharr none

/-! ## Header tables and request state

The embedding projects the APR header tables onto the keys the module
reads or writes: the two sentinel headers, `Content-Length`,
`Content-Encoding`, `Last-Modified`, `ETag` and `Vary`.  `apr_table`
operations on distinct keys commute, so this projection is faithful
for every claim about those keys. -/

/-- One APR header table, restricted to the keys the module touches. -/
@[ext] structure HeaderTable where
  xsendfile : Option String
  xsendfileTemporary : Option String
  contentLength : Option String
  contentEncoding : Option String
  lastModified : Option String
  etag : Option String
  vary : Option String
deriving DecidableEq, Repr

/-- The request state the filter reads and mutates. -/
@[ext] structure Request where
  status : Nat
  isSubreq : Bool
  handlerIsDefault : Bool
  headers_out : HeaderTable
  err_headers_out : HeaderTable
  acceptEncoding : Option String
  eosSent : Bool
  noCache : Bool
  noLocalCopy : Bool
  finfoInode : Nat
  finfoSize : Nat
deriving DecidableEq, Repr

/-- The `apr_table_mergen(t, key, val)` value computation: append with a
comma separator when the key already exists. -/
def mergen (old : Option String) (v : String) : Option String :=
  match old with
  | none => some v
  | some o => some (o ++ ", " ++ v)

/-- The test `!file || !*file`: the header slot is NULL or the empty string. -/
def emptyOpt (o : Option String) : Bool :=
  o.isNone || o == some ""

/-- The sentinel scan of lines 633-652: primary `X-SENDFILE`,
error-path `X-SENDFILE`, primary `X-SENDFILE-TEMPORARY` (setting
`shouldDeleteFile = 1`), error-path `X-SENDFILE-TEMPORARY`.  Returns
the final value of `file` and of `shouldDeleteFile`. -/
def scanHeaders (r : Request) : Option String × Bool :=
  let f0 := r.headers_out.xsendfile
  let f1 := if emptyOpt f0 then r.err_headers_out.xsendfile else f0
  let del := emptyOpt f1
  let f2 := if emptyOpt f1 then r.headers_out.xsendfileTemporary else f1
  let f3 := if emptyOpt f2 then r.err_headers_out.xsendfileTemporary else f2
  (f3, del)

/-- The four `apr_table_unset` calls of lines 655-658. -/
def clearSentinels (r : Request) : Request :=
  { r with
    headers_out := { r.headers_out with
      xsendfile := none, xsendfileTemporary := none }
    err_headers_out := { r.err_headers_out with
      xsendfile := none, xsendfileTemporary := none } }

/-- Lines 681-684: unset `Content-Length` and `Content-Encoding` in
both header tables after the original body has been dropped. -/
def unsetCLCE (r : Request) : Request :=
  { r with
    headers_out := { r.headers_out with
      contentLength := none, contentEncoding := none }
    err_headers_out := { r.err_headers_out with
      contentLength := none, contentEncoding := none } }

/-! ## The compressor (`ap_xsendfile_deflate`, HACKY_GZIP branch,
lines 309-362) -/

/-- Outcomes of the external steps of one `ap_xsendfile_deflate`
invocation: `creat` of the `.tmp` file, `fork`, `waitpid`,
`WIFEXITED`/`WEXITSTATUS` of the child, and the final `rename` of the
temporary path onto the canonical artifact path. -/
structure DeflateEnv where
  creatOk : Bool
  forkOk : Bool
  waitOk : Bool
  exited : Bool
  exitStatus : Nat
  renameOk : Bool
deriving DecidableEq, Repr

/-- Result of `ap_xsendfile_deflate`: `ok` is `return 1`, `fail` is
`return 0`, and `processExit c` records that the function called
`exit(c)` in the server process itself (the `creat` failure branch),
terminating the whole worker instead of returning to the caller. -/
inductive DeflateOutcome where
  | ok
  | fail
  | processExit (code : Nat)
deriving DecidableEq, Repr

/-- The function `ap_xsendfile_deflate(r, path, compressed_path, mode)`, exactly the
branch structure of lines 316-361: `creat` failure calls `exit(1)`;
`fork`/`waitpid` failure and abnormal termination return 0; an exit
status other than 0 or 1 returns 0; a failed `rename` unlinks the
temporary file and returns 0; otherwise the function returns 1. -/
def ap_xsendfile_deflate (env : DeflateEnv) : DeflateOutcome :=
  if env.creatOk = false then DeflateOutcome.processExit 1
  else if env.forkOk = false then DeflateOutcome.fail
  else if env.waitOk = false then DeflateOutcome.fail
  else if env.exited = false then DeflateOutcome.fail
  else if env.exitStatus ≠ 0 ∧ env.exitStatus ≠ 1 then DeflateOutcome.fail
  else if env.renameOk = false then DeflateOutcome.fail
  else DeflateOutcome.ok

/-! ## Filesystem metadata and the filter environment -/

/-- The fields of `struct stat` the module reads. -/
structure StatInfo where
  mtime : Int
  size : Nat
  mode : Nat
deriving DecidableEq, Repr

/-- The `apr_finfo_t` file types distinguished by the module. -/
inductive FileType where
  | reg
  | dir
  | other
deriving DecidableEq, Repr

/-- The fields of `apr_finfo_t` the module reads after opening. -/
structure FInfo where
  filetype : FileType
  size : Nat
  mtime : Int
  inode : Nat
deriving DecidableEq, Repr

/-- Oracles for the external collaborators of one filter invocation:

* `unescapeUrl` — `ap_unescape_url`; `Except.error s` is a non-`OK`
  status (bad encoding);
* `origRoot` — the result of `ap_xsendfile_get_orginal_path`;
* `fpMerge` — `apr_filepath_merge` with
  `APR_FILEPATH_TRUENAME | APR_FILEPATH_NOTABOVEROOT`;
* `hasGzipToken` — whether the `ap_get_token` scan of the given
  `Accept-Encoding` value finds a case-insensitive `gzip` token;
* `fsStat` — `stat()` against the filesystem before any compression;
* `deflateEnv` — outcomes of the compressor subprocess steps;
* `fsStatAfter` — `stat()` after a successful compressor run;
* `openOk` — whether `apr_file_open` succeeds on the given path;
* `fileInfo` — `apr_file_info_get` on the opened handle;
* `httpDate` — the `Last-Modified` value `ap_set_last_modified`
  derives from a modification time;
* `etagValue` — the value `ap_set_etag` computes for this request;
* `meetsConditions` — the status `ap_meets_conditions` returns
  (`0` = `OK`). -/
structure FilterEnv where
  unescapeUrl : String → Except Nat String
  origRoot : Option String
  fpMerge : String → String → Except Nat String
  hasGzipToken : String → Bool
  fsStat : String → Option StatInfo
  deflateEnv : DeflateEnv
  fsStatAfter : String → Option StatInfo
  openOk : String → Bool
  fileInfo : String → Option FInfo
  httpDate : Int → String
  etagValue : String
  meetsConditions : Nat

/-! ## Compression cache manager
(`ap_xsendfile_accepts_gzip`, `ap_xsendfile_get_compressed_filepath`,
lines 367-506) -/

/-- The function `ap_xsendfile_accepts_gzip` (lines 367-406): unconditionally merge
`Accept-Encoding` into the `Vary` response header, then return whether
the client's `Accept-Encoding` header exists and its token scan finds
`gzip`.  The `ap_get_token` loop is external Apache code, abstracted
by the `hasGzipToken` oracle. -/
def ap_xsendfile_accepts_gzip (env : FilterEnv) (r : Request) :
    Bool × Request :=
  let r1 := { r with headers_out :=
    { r.headers_out with vary := mergen r.headers_out.vary "Accept-Encoding" } }
  match r.acceptEncoding with
  | none => (false, r1)
  | some s => (env.hasGzipToken s, r1)

/-- The fixed extension allow-list of lines 445-450. -/
def compressible_extensions : List String :=
  [".css", ".js", ".html", ".json"]

/-- The extension check of lines 457-471: some allow-list entry is a
suffix of the path (entries longer than the path are skipped). -/
def compressiblePath (path : String) : Bool :=
  compressible_extensions.any fun ext =>
    decide (ext.length ≤ path.length) &&
      (path.drop (path.length - ext.length) == ext)

/-- Substitution effects of lines 497-499: `Content-Length` set to the
artifact's size, `Content-Encoding` set to `gzip`. -/
def substituteHeaders (r : Request) (size : Nat) : Request :=
  { r with headers_out := { r.headers_out with
      contentLength := some (toString size)
      contentEncoding := some "gzip" } }

/-- Result of `ap_xsendfile_get_compressed_filepath`: the (possibly
substituted) path, the updated request state, and whether the
compressor was invoked; `procExit` propagates a process-terminating
`exit()` from `ap_xsendfile_deflate`. -/
inductive CompressResult where
  | normal (path : String) (r : Request) (deflateCalled : Bool)
  | procExit (code : Nat)
deriving DecidableEq, Repr

/-- The stale/missing-artifact branch (lines 440-494): extension
check, compressor invocation, and the post-compression re-`stat`. -/
def recompress (env : FilterEnv) (r1 : Request)
    (path deflate_path : String) : CompressResult :=
  if compressiblePath path = false then CompressResult.normal path r1 false
  else
    match ap_xsendfile_deflate env.deflateEnv with
    | DeflateOutcome.processExit c => CompressResult.procExit c
    | DeflateOutcome.fail => CompressResult.normal path r1 true
    | DeflateOutcome.ok =>
      match env.fsStatAfter deflate_path with
      | none => CompressResult.normal path r1 true
      | some cst => CompressResult.normal deflate_path
          (substituteHeaders r1 cst.size) true

/-- The function `ap_xsendfile_get_compressed_filepath` (lines 408-506).  Note that
the extension allow-list is consulted only on the stale/missing branch
(lines 432-494); a pre-existing artifact whose mtime is not older than
the source is substituted without any extension check. -/
def ap_xsendfile_get_compressed_filepath (env : FilterEnv) (r : Request)
    (path : String) : CompressResult :=
  let res := ap_xsendfile_accepts_gzip env r
  if res.1 = false then CompressResult.normal path res.2 false
  else
    match env.fsStat path with
    | none => CompressResult.normal path res.2 false
    | some ost =>
      let deflate_path := path ++ ".gz"
      match env.fsStat deflate_path with
      | some cst =>
        if cst.mtime < ost.mtime then recompress env res.2 path deflate_path
        else CompressResult.normal deflate_path
          (substituteHeaders res.2 cst.size) false
      | none => recompress env res.2 path deflate_path

/-- The function `ap_xsendfile_get_filepath` (lines 511-577) in full: resolution
followed, on success, by the compression substitution of line 574. -/
inductive FilepathResult where
  | ok (path : String) (r : Request) (deflateCalled : Bool)
  | fail (status : Nat) (r : Request)
  | undef (r : Request)
  | procExit (code : Nat)
deriving DecidableEq, Repr

def ap_xsendfile_get_filepath (env : FilterEnv) (conf : Conf)
    (file : String) (shouldDeleteFile : Bool) (r : Request) :
    FilepathResult :=
  match xsendfile_resolve env.fpMerge env.origRoot conf file shouldDeleteFile with
  | ResolveResult.undef => FilepathResult.undef r
  | ResolveResult.fail s => FilepathResult.fail s r
  | ResolveResult.ok translated =>
    match ap_xsendfile_get_compressed_filepath env r translated with
    | CompressResult.procExit c => FilepathResult.procExit c
    | CompressResult.normal p r1 dc => FilepathResult.ok p r1 dc

/-! ## The output filter (`ap_xsendfile_output_filter`, lines 579-912) -/

/-- Lines 806-812: overwrite the request's inode/size bookkeeping with
the opened file's values and re-enable caching/local-copy. -/
def updateFinfo (r : Request) (fi : FInfo) : Request :=
  { r with finfoInode := fi.inode, finfoSize := fi.size
           noCache := false, noLocalCopy := false }

/-- Lines 815-825: if `ignoreLM` is enabled, or neither header table
already carries `last-modified`, clear the error-path copy and derive
`Last-Modified` from the file's mtime. -/
def lmUpdate (env : FilterEnv) (conf : Conf) (fi : FInfo) (r : Request) :
    Request :=
  if conf.ignoreLM = Tri.enabled
      ∨ (r.headers_out.lastModified = none
         ∧ r.err_headers_out.lastModified = none) then
    { r with
      headers_out := { r.headers_out with
        lastModified := some (env.httpDate fi.mtime) }
      err_headers_out := { r.err_headers_out with lastModified := none } }
  else r

/-- Lines 826-835: the analogous `ETag` computation. -/
def etagUpdate (env : FilterEnv) (conf : Conf) (r : Request) : Request :=
  if conf.ignoreETag = Tri.enabled
      ∨ (r.headers_out.etag = none ∧ r.err_headers_out.etag = none) then
    { r with
      headers_out := { r.headers_out with etag := some env.etagValue }
      err_headers_out := { r.err_headers_out with etag := none } }
  else r

/-- The call `ap_set_content_length(r, finfo.size)` (line 837). -/
def setContentLength (r : Request) (size : Nat) : Request :=
  { r with headers_out := { r.headers_out with
      contentLength := some (toString size) } }

/-- Outcome of one filter invocation.  `passThrough` passes the
original brigade unchanged; `dieStatus c` is `ap_die(c, r)` followed by
`return c`; `conditional c` is the `ap_meets_conditions` short-circuit
(status set, only EOS emitted); `served path size` streams the file;
`undef` propagates the uninitialised-status read of
`ap_xsendfile_get_filepath`; `procExit c` propagates an `exit(c)` that
terminates the server process. -/
inductive FilterResult where
  | passThrough
  | dieStatus (code : Nat)
  | conditional (code : Nat)
  | served (path : String) (size : Nat)
  | undef
  | procExit (code : Nat)
deriving DecidableEq, Repr

/-- Lines 669-911: the engaged part of the filter, entered once a
non-empty sentinel value has been found.  The brigade has been
emptied, `eos_sent` reset and `Content-Length`/`Content-Encoding`
dropped from both tables before unescaping, resolution, open, stat,
validator computation and precondition evaluation. -/
def xsendfile_engage (env : FilterEnv) (conf : Conf) (r : Request)
    (file : String) (shouldDeleteFile : Bool) : FilterResult × Request :=
  let r1 := unsetCLCE { r with eosSent := false }
  match (if conf.unescape ≠ Tri.disabled then env.unescapeUrl file
         else Except.ok file) with
  | Except.error _ =>
    (FilterResult.dieStatus HTTP_INTERNAL_SERVER_ERROR, r1)
  | Except.ok decoded =>
    match ap_xsendfile_get_filepath env conf decoded shouldDeleteFile r1 with
    | FilepathResult.undef r2 => (FilterResult.undef, r2)
    | FilepathResult.fail _ r2 => (FilterResult.dieStatus HTTP_NOT_FOUND, r2)
    | FilepathResult.procExit c => (FilterResult.procExit c, r1)
    | FilepathResult.ok translated r2 _ =>
      if env.openOk translated = false then
        (FilterResult.dieStatus HTTP_NOT_FOUND, r2)
      else
        match env.fileInfo translated with
        | none => (FilterResult.dieStatus HTTP_FORBIDDEN, r2)
        | some fi =>
          if fi.filetype ≠ FileType.reg then
            (FilterResult.dieStatus HTTP_NOT_FOUND, r2)
          else
            let r3 := setContentLength
              (etagUpdate env conf (lmUpdate env conf fi (updateFinfo r2 fi)))
              fi.size
            if env.meetsConditions ≠ STATUS_OK then
              (FilterResult.conditional env.meetsConditions,
               { r3 with status := env.meetsConditions })
            else (FilterResult.served translated fi.size, r3)

/-- The function `ap_xsendfile_output_filter` (lines 579-912).  The merged
configuration is built inside the filter from the server (`sconf`,
base) and per-directory (`dconf`, overrides) configurations, exactly
as in line 585.  The activation check of lines 618-628 passes the
brigade through untouched — without removing the sentinel headers —
when the status is not `HTTP_OK`, the request is a sub-request, or the
handler is the default handler. -/
def ap_xsendfile_output_filter (env : FilterEnv) (sconf dconf : Conf)
    (r : Request) : FilterResult × Request :=
  let conf := xsendfile_config_merge sconf dconf
  if r.status ≠ HTTP_OK ∨ r.isSubreq = true ∨ r.handlerIsDefault = true then
    (FilterResult.passThrough, r)
  else
    let scanned := scanHeaders r
    let r := clearSentinels r
    if emptyOpt scanned.1 then (FilterResult.passThrough, r)
    else xsendfile_engage env conf r (scanned.1.getD "") scanned.2

/-! ## Concrete fixtures used by witnesses and counterexamples -/

/-- An empty header table. -/
def table0 : HeaderTable := ⟨none, none, none, none, none, none, none⟩

/-- A configuration with no directives set. -/
def conf0 : Conf := ⟨Tri.unset, Tri.unset, Tri.unset, Tri.unset, []⟩

/-- A compressor run in which every external step succeeds. -/
def defl0 : DeflateEnv := ⟨true, true, true, true, 0, true⟩

/-- A benign environment: unescaping is the identity, path merging
concatenates root and file, no file exists on disk. -/
def env0 : FilterEnv :=
  { unescapeUrl := fun s => Except.ok s
    origRoot := none
    fpMerge := fun root f => Except.ok (root ++ f)
    hasGzipToken := fun _ => true
    fsStat := fun _ => none
    deflateEnv := defl0
    fsStatAfter := fun _ => none
    openOk := fun _ => true
    fileInfo := fun _ => some ⟨FileType.reg, 10, 5, 1⟩
    httpDate := fun _ => "Thu, 01 Jan 1970 00:00:00 GMT"
    etagValue := "tag"
    meetsConditions := 0 }

/-- A plain 200 request with empty header tables. -/
def req0 : Request :=
  ⟨HTTP_OK, false, false, table0, table0, none, true, true, true, 0, 0⟩

/-- A configuration whose only root lacks `AllowFileDelete`. -/
def confTempNoDelete : Conf :=
  ⟨Tri.unset, Tri.unset, Tri.unset, Tri.unset, [⟨"/srv/protected/", false⟩]⟩

/-- A request carrying `X-SENDFILE-TEMPORARY: report.pdf`. -/
def reqTemp : Request :=
  { req0 with headers_out := { table0 with xsendfileTemporary := some "report.pdf" } }

/-- A compressor run whose `creat` of the temporary file fails. -/
def deflFailCreat : DeflateEnv := ⟨false, true, true, true, 0, true⟩

/-- An environment where `/var/data/app.js` exists (no `.gz` sibling),
the client accepts gzip, and `creat` fails. -/
def envC6 : FilterEnv :=
  { env0 with
    fsStat := fun p => if p = "/var/data/app.js" then some ⟨10, 100, 420⟩ else none
    deflateEnv := deflFailCreat }

/-- A request whose client sent `Accept-Encoding: gzip`. -/
def reqGzip : Request := { req0 with acceptEncoding := some "gzip" }

/-- A compressor run that exits with status 1 and renames fine. -/
def deflExit1 : DeflateEnv := ⟨true, true, true, true, 1, true⟩

/-- A configuration whose only root is deletable. -/
def confTmpOk : Conf :=
  ⟨Tri.unset, Tri.unset, Tri.unset, Tri.unset, [⟨"/spool/", true⟩]⟩

/-- A merge oracle that concatenates root and file. -/
def mergeConcat : String → String → Except Nat String :=
  fun root f => Except.ok (root ++ f)

/-- Three configured roots; the first fails to merge, the second and
third would both contain the value. -/
def confC3 : Conf :=
  ⟨Tri.unset, Tri.unset, Tri.unset, Tri.unset,
   [⟨"/a/", true⟩, ⟨"/b/", true⟩, ⟨"/c/", true⟩]⟩

/-- A merge oracle failing on `/a/` and succeeding elsewhere. -/
def mergeC3 : String → String → Except Nat String :=
  fun root f => if root = "/a/" then Except.error 20023 else Except.ok (root ++ f)

/-- The artifact-validity invariant as tested by line 432 (negated):
the artifact exists and its mtime is not older than the source's. -/
def artifactValidB (fs : String → Option StatInfo) (path : String)
    (ost : StatInfo) : Bool :=
  match fs (path ++ ".gz") with
  | some cst => !(decide (cst.mtime < ost.mtime))
  | none => false

/-- The artifact is missing or stale (whenever both source and
artifact can be stat'd, the artifact is older; a missing artifact or
source also counts). -/
def artifactInvalidB (fs : String → Option StatInfo) (path : String) : Bool :=
  match fs path, fs (path ++ ".gz") with
  | some ost, some cst => decide (cst.mtime < ost.mtime)
  | _, _ => true

/-- Filesystem for the C5 counterexample: `/data/archive.bin` exists
and already has a fresh `.gz` sibling. -/
def stat5 : String → Option StatInfo := fun s =>
  if s = "/data/archive.bin" then some ⟨5, 100, 420⟩
  else if s = "/data/archive.bin.gz" then some ⟨7, 40, 420⟩
  else none

/-- Environment for the C5 counterexample. -/
def env5 : FilterEnv := { env0 with fsStat := stat5 }

/-- Filesystem for the C7 witness: `/site/app.css` with a fresh `.gz`
sibling. -/
def stat7 : String → Option StatInfo := fun s =>
  if s = "/site/app.css" then some ⟨50, 600, 420⟩
  else if s = "/site/app.css.gz" then some ⟨60, 200, 420⟩
  else none

/-- Environment for the C7 witness. -/
def env7 : FilterEnv := { env0 with fsStat := stat7 }

/-- Request for the C4 counterexample: a non-OK response that still
carries an `X-SENDFILE` header. -/
def req4 : Request :=
  { req0 with status := 500
              headers_out := { table0 with xsendfile := some "/etc/passwd" } }

/-- Request for the C4 witness: a 200 response carrying an
`X-SENDFILE` header. -/
def req4w : Request :=
  { req0 with headers_out := { table0 with xsendfile := some "/www/a.txt" } }

/-- The four sentinel header slots in scan order. -/
inductive SentinelSlot where
  | priX
  | errX
  | priT
  | errT
deriving DecidableEq, Repr

/-- Read one sentinel header slot. -/
def getSlot (r : Request) : SentinelSlot → Option String
  | SentinelSlot.priX => r.headers_out.xsendfile
  | SentinelSlot.errX => r.err_headers_out.xsendfile
  | SentinelSlot.priT => r.headers_out.xsendfileTemporary
  | SentinelSlot.errT => r.err_headers_out.xsendfileTemporary

/-- Overwrite one sentinel header slot. -/
def setSlot (r : Request) : SentinelSlot → Option String → Request
  | SentinelSlot.priX, v =>
    { r with headers_out := { r.headers_out with xsendfile := v } }
  | SentinelSlot.errX, v =>
    { r with err_headers_out := { r.err_headers_out with xsendfile := v } }
  | SentinelSlot.priT, v =>
    { r with headers_out := { r.headers_out with xsendfileTemporary := v } }
  | SentinelSlot.errT, v =>
    { r with err_headers_out := { r.err_headers_out with xsendfileTemporary := v } }

/-- The four sentinel header values of a request, as one tuple. -/
def sentinelsOf (r : Request) :
    Option String × Option String × Option String × Option String :=
  (r.headers_out.xsendfile, r.headers_out.xsendfileTemporary,
   r.err_headers_out.xsendfile, r.err_headers_out.xsendfileTemporary)

/-- No sentinel header is present in either header table. -/
def sentinelFree (r : Request) : Prop :=
  r.headers_out.xsendfile = none
  ∧ r.headers_out.xsendfileTemporary = none
  ∧ r.err_headers_out.xsendfile = none
  ∧ r.err_headers_out.xsendfileTemporary = none

/-- Request for the C10 witness: only an empty-valued primary
`X-SENDFILE` header is present. -/
def req10 : Request :=
  { req0 with headers_out := { table0 with xsendfile := some "" } }

/-! # Theorems -/

/-- Claim C8: configuration merge is override-with-fallback — each
tri-state flag takes the child's (overrides') value unless it is
unset, in which case the parent's (base's) value is used — and the
merged allowed-root list is the child's roots followed by the
parent's roots. -/
theorem config_merge_override_with_fallback (base overrides : Conf) :
    (xsendfile_config_merge base overrides).enabled
        = (if overrides.enabled = Tri.unset then base.enabled else overrides.enabled)
    ∧ (xsendfile_config_merge base overrides).ignoreETag
        = (if overrides.ignoreETag = Tri.unset then base.ignoreETag else overrides.ignoreETag)
    ∧ (xsendfile_config_merge base overrides).ignoreLM
        = (if overrides.ignoreLM = Tri.unset then base.ignoreLM else overrides.ignoreLM)
    ∧ (xsendfile_config_merge base overrides).unescape
        = (if overrides.unescape = Tri.unset then base.unescape else overrides.unescape)
    ∧ (xsendfile_config_merge base overrides).paths
        = overrides.paths ++ base.paths := by
  refine ⟨?_, ?_, ?_, ?_, rfl⟩ <;> simp [xsendfile_config_merge, cflag, ite_not]

/-- Claim C1 (code bug): when `deliveryMode` is temporary and every
configured root lacks `AllowFileDelete`, the loop of
`ap_xsendfile_get_filepath` skips every root and the function then
reads its never-initialised local `rv` — the result is indeterminate
(`undef`) rather than the `APR_EBADPATH` failure the spec requires.
The fail-closed `APR_EBADPATH`/404 outcome does hold for the
empty-root-list case, as the second and third conjuncts show. -/
theorem resolve_all_roots_skipped_is_uninitialized :
    xsendfile_resolve (fun root f => Except.ok (root ++ f))
        (some "/var/www/dir/") confTempNoDelete "report.pdf" true
      = ResolveResult.undef
    ∧ xsendfile_resolve (fun root f => Except.ok (root ++ f))
        none conf0 "report.pdf" true
      = ResolveResult.fail APR_EBADPATH
    ∧ (ap_xsendfile_output_filter env0 conf0 conf0 reqTemp).1
      = FilterResult.dieStatus HTTP_NOT_FOUND
    ∧ (ap_xsendfile_output_filter env0 conf0 confTempNoDelete reqTemp).1
      = FilterResult.undef
    ∧ ResolveResult.undef ≠ ResolveResult.fail APR_EBADPATH := by
  exact ⟨rfl, rfl, rfl, rfl, by decide⟩

/-- Claim C6 (code bug): when the `creat` of the temporary compression
output file fails, `ap_xsendfile_deflate` calls `exit(1)` in the
server process instead of falling back to the uncompressed source:
the request (and the whole worker) is aborted, not recovered
locally. -/
theorem deflate_creat_failure_exits_process :
    ap_xsendfile_deflate deflFailCreat = DeflateOutcome.processExit 1
    ∧ ap_xsendfile_get_compressed_filepath envC6 reqGzip "/var/data/app.js"
      = CompressResult.procExit 1 := by
  exact ⟨rfl, rfl⟩

/-- Claim C9: provided the temporary file is created and the child is
spawned and awaited, the compressor invocation returns success exactly
when the child exited normally with status 0 or 1 and the rename of
the temporary path onto the artifact path succeeds. -/
theorem deflate_success_iff (env : DeflateEnv) (h1 : env.creatOk = true)
    (h2 : env.forkOk = true) (h3 : env.waitOk = true) :
    ap_xsendfile_deflate env = DeflateOutcome.ok
      ↔ (env.exited = true ∧ (env.exitStatus = 0 ∨ env.exitStatus = 1)
         ∧ env.renameOk = true) := by
  simp only [ap_xsendfile_deflate, h1, h2, h3]
  cases he : env.exited <;> cases hr : env.renameOk <;>
    by_cases hs : env.exitStatus = 0 ∨ env.exitStatus = 1 <;>
    simp [he, hr, hs] <;> tauto

/-- Witness for C9 at a concrete compressor run with exit status 1. -/
theorem deflate_success_iff_witness :
    deflExit1.creatOk = true ∧ deflExit1.forkOk = true
    ∧ deflExit1.waitOk = true
    ∧ (ap_xsendfile_deflate deflExit1 = DeflateOutcome.ok
       ↔ (deflExit1.exited = true
          ∧ (deflExit1.exitStatus = 0 ∨ deflExit1.exitStatus = 1)
          ∧ deflExit1.renameOk = true)) :=
  ⟨rfl, rfl, rfl, deflate_success_iff deflExit1 rfl rfl rfl⟩

/-- In temporary (delete) mode, a successful pass of the resolution
loop can only come from a list element carrying `allowFileDelete`. -/
theorem resolveLoop_temporary_mem (m : String → String → Except Nat String)
    (file p : String) :
    ∀ (l : List XPath) (acc : Option Nat),
      resolveLoop m file true l acc = ResolveResult.ok p →
      ∃ xp, xp ∈ l ∧ xp.allowFileDelete = true ∧ m xp.path file = Except.ok p := by
  intro l
  induction l with
  | nil =>
    intro acc h
    cases acc <;> simp [resolveLoop] at h
  | cons q rest ih =>
    intro acc h
    cases hq : q.allowFileDelete with
    | false =>
      rw [resolveLoop, if_pos (by simp [hq])] at h
      obtain ⟨xp, hmem, hdel, hmerge⟩ := ih acc h
      exact ⟨xp, List.mem_cons_of_mem q hmem, hdel, hmerge⟩
    | true =>
      rw [resolveLoop, if_neg (by simp [hq])] at h
      cases hm : m q.path file with
      | ok merged =>
        rw [hm] at h
        cases h
        exact ⟨q, List.mem_cons_self q rest, hq, hm⟩
      | error s =>
        rw [hm] at h
        obtain ⟨xp, hmem, hdel, hmerge⟩ := ih (some s) h
        exact ⟨xp, List.mem_cons_of_mem q hmem, hdel, hmerge⟩

/-- Claim C2: a temporary-mode resolution never succeeds against a
root without `allowFileDelete`: any successful result comes from a
configured root with delete permission, and the implicit root derived
from the request's own directory is never even placed in the
candidate list in temporary mode. -/
theorem resolve_temporary_requires_allow_delete
    (m : String → String → Except Nat String) (origRoot : Option String)
    (conf : Conf) (file p : String)
    (h : xsendfile_resolve m origRoot conf file true = ResolveResult.ok p) :
    (∃ xp, xp ∈ conf.paths ∧ xp.allowFileDelete = true
       ∧ m xp.path file = Except.ok p)
    ∧ candidateRoots origRoot conf.paths true = conf.paths := by
  refine ⟨?_, rfl⟩
  unfold xsendfile_resolve at h
  by_cases hl : (candidateRoots origRoot conf.paths true).length = 0
  · rw [if_pos hl] at h
    cases h
  · rw [if_neg hl] at h
    exact resolveLoop_temporary_mem m file p _ none h

/-- Witness for C2 at a concrete configuration and sentinel value. -/
theorem resolve_temporary_requires_allow_delete_witness :
    xsendfile_resolve mergeConcat (some "/www/docs/") confTmpOk "x.bin" true
      = ResolveResult.ok "/spool/x.bin"
    ∧ ((∃ xp, xp ∈ confTmpOk.paths ∧ xp.allowFileDelete = true
         ∧ mergeConcat xp.path "x.bin" = Except.ok "/spool/x.bin")
       ∧ candidateRoots (some "/www/docs/") confTmpOk.paths true = confTmpOk.paths) :=
  ⟨rfl, resolve_temporary_requires_allow_delete mergeConcat (some "/www/docs/")
      confTmpOk "x.bin" "/spool/x.bin" rfl⟩

/-- First-match behaviour of the resolution loop: if every earlier
root is skipped or fails to merge, the first eligible, successfully
merging root determines the result, whatever follows it. -/
theorem resolveLoop_first_match (m : String → String → Except Nat String)
    (file : String) (del : Bool) (p : XPath) (res : String)
    (l2 : List XPath)
    (hp : (del && !p.allowFileDelete) = false)
    (hm : m p.path file = Except.ok res) :
    ∀ (l1 : List XPath) (acc : Option Nat),
      (∀ q ∈ l1, (del && !q.allowFileDelete) = true
        ∨ ∃ s, m q.path file = Except.error s) →
      resolveLoop m file del (l1 ++ p :: l2) acc = ResolveResult.ok res := by
  intro l1
  induction l1 with
  | nil =>
    intro acc _
    rw [List.nil_append, resolveLoop, if_neg (by simp [hp]), hm]
  | cons q rest ih =>
    intro acc h
    rw [List.cons_append]
    by_cases hsk : (del && !q.allowFileDelete) = true
    · rw [resolveLoop, if_pos hsk]
      exact ih acc fun x hx => h x (List.mem_cons_of_mem q hx)
    · rcases h q (List.mem_cons_self q rest) with hk | ⟨s, hs⟩
      · exact absurd hk hsk
      · rw [resolveLoop, if_neg hsk, hs]
        exact ih (some s) fun x hx => h x (List.mem_cons_of_mem q hx)

/-- Claim C3: root resolution is deterministic first-match-in-order —
whenever the candidate root list splits as `l1 ++ p :: l2` where every
root of `l1` is skipped or fails to merge and `p` is eligible and
merges successfully, the resolved path is `p`'s merge result, no
matter what later roots (which may also contain the value) would
yield. -/
theorem resolve_first_match (m : String → String → Except Nat String)
    (origRoot : Option String) (conf : Conf) (file : String) (del : Bool)
    (l1 l2 : List XPath) (p : XPath) (res : String)
    (hc : candidateRoots origRoot conf.paths del = l1 ++ p :: l2)
    (h1 : ∀ q ∈ l1, (del && !q.allowFileDelete) = true
        ∨ ∃ s, m q.path file = Except.error s)
    (hp : (del && !p.allowFileDelete) = false)
    (hm : m p.path file = Except.ok res) :
    xsendfile_resolve m origRoot conf file del = ResolveResult.ok res := by
  unfold xsendfile_resolve
  rw [hc, if_neg (by simp)]
  exact resolveLoop_first_match m file del p res l2 hp hm l1 none h1

/-- Witness for C3: with roots `/a/` (merge fails), `/b/` and `/c/`
(both would contain the value), the earlier succeeding root `/b/`
wins. -/
theorem resolve_first_match_witness :
    mergeC3 "/c/" "f.txt" = Except.ok "/c/f.txt"
    ∧ xsendfile_resolve mergeC3 none confC3 "f.txt" false
      = ResolveResult.ok "/b/f.txt" := by
  refine ⟨rfl, ?_⟩
  refine resolve_first_match mergeC3 none confC3 "f.txt" false
    [⟨"/a/", true⟩] [⟨"/c/", true⟩] ⟨"/b/", true⟩ "/b/f.txt" rfl ?_ rfl rfl
  intro q hq
  rw [List.mem_singleton] at hq
  subst hq
  exact Or.inr ⟨20023, rfl⟩

/-- A path is never equal to itself with `".gz"` appended. -/
theorem ne_append_gz (s : String) : s ≠ s ++ ".gz" := by
  intro h
  have hl := congrArg String.length h
  rw [String.length_append] at hl
  simp at hl
  exact absurd hl (by decide)

/-- Claim C5 counterexample: the claim fails as stated.  For the
source path `/data/archive.bin` — whose extension is not in the
allow-list — a pre-existing fresh `.gz` artifact is substituted and
`Content-Encoding: gzip` is set, because the extension check of lines
457-477 sits inside the stale/missing branch and is never consulted
when a valid artifact already exists. -/
theorem noncompressible_extension_still_substituted :
    compressiblePath "/data/archive.bin" = false
    ∧ ap_xsendfile_get_compressed_filepath env5 reqGzip "/data/archive.bin"
      = CompressResult.normal "/data/archive.bin.gz"
          (substituteHeaders (ap_xsendfile_accepts_gzip env5 reqGzip).2 40) false
    ∧ (substituteHeaders (ap_xsendfile_accepts_gzip env5 reqGzip).2
        40).headers_out.contentEncoding = some "gzip" := by
  exact ⟨by decide, rfl, rfl⟩

/-- Claim C5 as amended: when the compressed artifact is missing or
stale, a source path whose extension is not in the allow-list skips
compression entirely — the path is returned unchanged, the compressor
is not invoked, and the only header effect is the unconditional
`Vary` merge of `ap_xsendfile_accepts_gzip`. -/
theorem noncompressible_extension_skips_when_invalid (env : FilterEnv)
    (r : Request) (path : String)
    (hcomp : compressiblePath path = false)
    (hinv : artifactInvalidB env.fsStat path = true) :
    ap_xsendfile_get_compressed_filepath env r path
      = CompressResult.normal path (ap_xsendfile_accepts_gzip env r).2 false := by
  unfold ap_xsendfile_get_compressed_filepath
  by_cases ha : (ap_xsendfile_accepts_gzip env r).1 = false
  · rw [if_pos ha]
  · rw [if_neg ha]
    unfold artifactInvalidB at hinv
    cases hsrc : env.fsStat path with
    | none => rfl
    | some ost =>
      rw [hsrc] at hinv
      cases hgz : env.fsStat (path ++ ".gz") with
      | none =>
        simp only [hgz]
        unfold recompress
        rw [if_pos hcomp]
      | some cst =>
        rw [hgz] at hinv
        simp only [decide_eq_true_eq] at hinv
        simp only [hgz, if_pos hinv]
        unfold recompress
        rw [if_pos hcomp]

/-- Witness for the amended C5 at a concrete non-compressible path
with no artifact on disk. -/
theorem noncompressible_extension_skips_when_invalid_witness :
    compressiblePath "/data/readme.txt" = false
    ∧ artifactInvalidB env0.fsStat "/data/readme.txt" = true
    ∧ ap_xsendfile_get_compressed_filepath env0 reqGzip "/data/readme.txt"
      = CompressResult.normal "/data/readme.txt"
          (ap_xsendfile_accepts_gzip env0 reqGzip).2 false :=
  ⟨by decide, rfl,
   noncompressible_extension_skips_when_invalid env0 reqGzip
     "/data/readme.txt" (by decide) rfl⟩

/-- Every branch of the stale/missing-artifact path that returns the
artifact path has invoked the compressor; the only branch that does
not invoke it returns the source path unchanged. -/
theorem recompress_dc (env : FilterEnv) (r1 : Request) (path dp : String)
    (p2 : String) (r2 : Request) (dc : Bool)
    (hne : path ≠ dp) (hp2 : p2 = dp)
    (h : recompress env r1 path dp = CompressResult.normal p2 r2 dc) :
    dc = true := by
  unfold recompress at h
  by_cases hc : compressiblePath path = false
  · rw [if_pos hc] at h
    injection h with h1 h2 h3
    exact absurd (h1.trans hp2) hne
  · rw [if_neg hc] at h
    cases hd : ap_xsendfile_deflate env.deflateEnv with
    | processExit c =>
      rw [hd] at h
      exact CompressResult.noConfusion h
    | fail =>
      rw [hd] at h
      injection h with h1 h2 h3
      exact h3.symm
    | ok =>
      rw [hd] at h
      cases hs : env.fsStatAfter dp with
      | none =>
        rw [hs] at h
        injection h with h1 h2 h3
        exact h3.symm
      | some cst =>
        rw [hs] at h
        injection h with h1 h2 h3
        exact h3.symm

/-- Claim C7: with a client that accepts gzip and a stat-able source,
(a) a valid artifact — it exists and its mtime is not older than the
source's — is substituted as-is, without invoking the compressor, and
(b) whenever the compressed artifact path is the one served, the
compressor was invoked exactly when the artifact was invalid
(missing or older than the source). -/
theorem compressed_artifact_validity (env : FilterEnv) (r : Request)
    (path : String) (ost : StatInfo)
    (hacc : (ap_xsendfile_accepts_gzip env r).1 = true)
    (hsrc : env.fsStat path = some ost) :
    (artifactValidB env.fsStat path ost = true →
       ∃ cst, env.fsStat (path ++ ".gz") = some cst
         ∧ ap_xsendfile_get_compressed_filepath env r path
           = CompressResult.normal (path ++ ".gz")
               (substituteHeaders (ap_xsendfile_accepts_gzip env r).2 cst.size)
               false)
    ∧ (∀ p2 r2 dc,
         ap_xsendfile_get_compressed_filepath env r path
           = CompressResult.normal p2 r2 dc →
         p2 = path ++ ".gz" →
         dc = !(artifactValidB env.fsStat path ost)) := by
  constructor
  · intro hval
    unfold artifactValidB at hval
    cases hgz : env.fsStat (path ++ ".gz") with
    | none =>
      rw [hgz] at hval
      simp at hval
    | some cst =>
      rw [hgz] at hval
      have hval2 : (!decide (cst.mtime < ost.mtime)) = true := hval
      rw [Bool.not_eq_true', decide_eq_false_iff_not] at hval2
      refine ⟨cst, rfl, ?_⟩
      unfold ap_xsendfile_get_compressed_filepath
      rw [if_neg (by simp [hacc])]
      simp only [hsrc, hgz]
      rw [if_neg hval2]
  · intro p2 r2 dc h hp2
    unfold ap_xsendfile_get_compressed_filepath at h
    rw [if_neg (by simp [hacc])] at h
    simp only [hsrc] at h
    cases hgz : env.fsStat (path ++ ".gz") with
    | none =>
      rw [hgz] at h
      have h2 : recompress env (ap_xsendfile_accepts_gzip env r).2 path
          (path ++ ".gz") = CompressResult.normal p2 r2 dc := h
      have hdc := recompress_dc env _ path (path ++ ".gz") p2 r2 dc
        (ne_append_gz path) hp2 h2
      simp [artifactValidB, hgz, hdc]
    | some cst =>
      rw [hgz] at h
      have h2 : (if cst.mtime < ost.mtime
          then recompress env (ap_xsendfile_accepts_gzip env r).2 path (path ++ ".gz")
          else CompressResult.normal (path ++ ".gz")
            (substituteHeaders (ap_xsendfile_accepts_gzip env r).2 cst.size) false)
          = CompressResult.normal p2 r2 dc := h
      by_cases hst : cst.mtime < ost.mtime
      · rw [if_pos hst] at h2
        have hdc := recompress_dc env _ path (path ++ ".gz") p2 r2 dc
          (ne_append_gz path) hp2 h2
        simp [artifactValidB, hgz, hdc, hst]
      · rw [if_neg hst] at h2
        injection h2 with h1 hr2 h3
        simp [artifactValidB, hgz, hst]
        exact h3.symm

/-- Witness for C7 at a concrete filesystem with a fresh artifact. -/
theorem compressed_artifact_validity_witness :
    (ap_xsendfile_accepts_gzip env7 reqGzip).1 = true
    ∧ env7.fsStat "/site/app.css" = some ⟨50, 600, 420⟩
    ∧ ((artifactValidB env7.fsStat "/site/app.css" ⟨50, 600, 420⟩ = true →
         ∃ cst, env7.fsStat ("/site/app.css" ++ ".gz") = some cst
           ∧ ap_xsendfile_get_compressed_filepath env7 reqGzip "/site/app.css"
             = CompressResult.normal ("/site/app.css" ++ ".gz")
                 (substituteHeaders
                   (ap_xsendfile_accepts_gzip env7 reqGzip).2 cst.size)
                 false)
       ∧ (∀ p2 r2 dc,
           ap_xsendfile_get_compressed_filepath env7 reqGzip "/site/app.css"
             = CompressResult.normal p2 r2 dc →
           p2 = "/site/app.css" ++ ".gz" →
           dc = !(artifactValidB env7.fsStat "/site/app.css" ⟨50, 600, 420⟩))) :=
  ⟨rfl, rfl,
   compressed_artifact_validity env7 reqGzip "/site/app.css" ⟨50, 600, 420⟩
     rfl rfl⟩

/-- The value of `sentinelsOf` at a literal request is the tuple of its four
sentinel fields. -/
@[simp] theorem sentinelsOf_mk (s : Nat) (sub hd : Bool)
    (ho eho : HeaderTable) (ae : Option String) (eos nc nlc : Bool)
    (fi fs : Nat) :
    sentinelsOf ⟨s, sub, hd, ho, eho, ae, eos, nc, nlc, fi, fs⟩
      = (ho.xsendfile, ho.xsendfileTemporary,
         eho.xsendfile, eho.xsendfileTemporary) := rfl

/-- The `Vary` merge of `ap_xsendfile_accepts_gzip` leaves the
sentinel headers untouched. -/
theorem sentinelsOf_accepts (env : FilterEnv) (r : Request) :
    sentinelsOf (ap_xsendfile_accepts_gzip env r).2 = sentinelsOf r := by
  unfold ap_xsendfile_accepts_gzip
  cases r.acceptEncoding <;> rfl

/-- The transform `lmUpdate` leaves the sentinel headers untouched. -/
theorem sentinelsOf_lmUpdate (env : FilterEnv) (conf : Conf) (fi : FInfo)
    (r : Request) : sentinelsOf (lmUpdate env conf fi r) = sentinelsOf r := by
  unfold lmUpdate
  split <;> rfl

/-- The transform `etagUpdate` leaves the sentinel headers untouched. -/
theorem sentinelsOf_etagUpdate (env : FilterEnv) (conf : Conf)
    (r : Request) : sentinelsOf (etagUpdate env conf r) = sentinelsOf r := by
  unfold etagUpdate
  split <;> rfl

/-- The stale/missing-artifact branch leaves the sentinel headers
untouched in any non-exiting outcome. -/
theorem recompress_sentinels (env : FilterEnv) (r1 : Request)
    (path dp p2 : String) (r2 : Request) (dc : Bool)
    (h : recompress env r1 path dp = CompressResult.normal p2 r2 dc) :
    sentinelsOf r2 = sentinelsOf r1 := by
  unfold recompress at h
  by_cases hc : compressiblePath path = false
  · rw [if_pos hc] at h
    injection h with h1 hr h3
    rw [← hr]
  · rw [if_neg hc] at h
    cases hd : ap_xsendfile_deflate env.deflateEnv with
    | processExit c =>
      rw [hd] at h
      exact CompressResult.noConfusion h
    | fail =>
      rw [hd] at h
      injection h with h1 hr h3
      rw [← hr]
    | ok =>
      rw [hd] at h
      cases hs : env.fsStatAfter dp with
      | none =>
        rw [hs] at h
        injection h with h1 hr h3
        rw [← hr]
      | some cst =>
        rw [hs] at h
        injection h with h1 hr h3
        rw [← hr]
        rfl

/-- The compression cache manager leaves the sentinel headers
untouched in any non-exiting outcome. -/
theorem ccm_sentinels (env : FilterEnv) (r : Request) (path p2 : String)
    (r2 : Request) (dc : Bool)
    (h : ap_xsendfile_get_compressed_filepath env r path
      = CompressResult.normal p2 r2 dc) :
    sentinelsOf r2 = sentinelsOf r := by
  unfold ap_xsendfile_get_compressed_filepath at h
  by_cases ha : (ap_xsendfile_accepts_gzip env r).1 = false
  · rw [if_pos ha] at h
    injection h with h1 hr h3
    rw [← hr, sentinelsOf_accepts]
  · rw [if_neg ha] at h
    cases hsrc : env.fsStat path with
    | none =>
      rw [hsrc] at h
      injection h with h1 hr h3
      rw [← hr, sentinelsOf_accepts]
    | some ost =>
      simp only [hsrc] at h
      cases hgz : env.fsStat (path ++ ".gz") with
      | none =>
        simp only [hgz] at h
        have h2 : recompress env (ap_xsendfile_accepts_gzip env r).2 path
            (path ++ ".gz") = CompressResult.normal p2 r2 dc := h
        rw [recompress_sentinels env _ path (path ++ ".gz") p2 r2 dc h2,
          sentinelsOf_accepts]
      | some cst =>
        simp only [hgz] at h
        have h2 : (if cst.mtime < ost.mtime
            then recompress env (ap_xsendfile_accepts_gzip env r).2 path
              (path ++ ".gz")
            else CompressResult.normal (path ++ ".gz")
              (substituteHeaders (ap_xsendfile_accepts_gzip env r).2 cst.size)
              false)
            = CompressResult.normal p2 r2 dc := h
        by_cases hst : cst.mtime < ost.mtime
        · rw [if_pos hst] at h2
          rw [recompress_sentinels env _ path (path ++ ".gz") p2 r2 dc h2,
            sentinelsOf_accepts]
        · rw [if_neg hst] at h2
          injection h2 with h1 hr h3
          rw [← hr]
          exact sentinelsOf_accepts env r

/-- A failed lookup returns the caller's request state unchanged. -/
theorem get_filepath_fail_req (env : FilterEnv) (conf : Conf)
    (file : String) (del : Bool) (rin : Request) (s : Nat) (rout : Request)
    (h : ap_xsendfile_get_filepath env conf file del rin
      = FilepathResult.fail s rout) : rout = rin := by
  unfold ap_xsendfile_get_filepath at h
  cases hres : xsendfile_resolve env.fpMerge env.origRoot conf file del with
  | ok p =>
    simp only [hres] at h
    cases hc : ap_xsendfile_get_compressed_filepath env rin p with
    | normal q rq dq =>
      simp only [hc] at h
      exact FilepathResult.noConfusion h
    | procExit c =>
      simp only [hc] at h
      exact FilepathResult.noConfusion h
  | fail s2 =>
    rw [hres] at h
    injection h with h1 h2
    exact h2.symm
  | undef =>
    rw [hres] at h
    exact FilepathResult.noConfusion h

/-- An undefined lookup returns the caller's request state
unchanged. -/
theorem get_filepath_undef_req (env : FilterEnv) (conf : Conf)
    (file : String) (del : Bool) (rin rout : Request)
    (h : ap_xsendfile_get_filepath env conf file del rin
      = FilepathResult.undef rout) : rout = rin := by
  unfold ap_xsendfile_get_filepath at h
  cases hres : xsendfile_resolve env.fpMerge env.origRoot conf file del with
  | ok p =>
    simp only [hres] at h
    cases hc : ap_xsendfile_get_compressed_filepath env rin p with
    | normal q rq dq =>
      simp only [hc] at h
      exact FilepathResult.noConfusion h
    | procExit c =>
      simp only [hc] at h
      exact FilepathResult.noConfusion h
  | fail s2 =>
    rw [hres] at h
    exact FilepathResult.noConfusion h
  | undef =>
    rw [hres] at h
    injection h with h1
    exact h1.symm

/-- A successful lookup leaves the sentinel headers untouched. -/
theorem get_filepath_ok_sentinels (env : FilterEnv) (conf : Conf)
    (file : String) (del : Bool) (rin : Request) (p : String)
    (rout : Request) (dc : Bool)
    (h : ap_xsendfile_get_filepath env conf file del rin
      = FilepathResult.ok p rout dc) :
    sentinelsOf rout = sentinelsOf rin := by
  unfold ap_xsendfile_get_filepath at h
  cases hres : xsendfile_resolve env.fpMerge env.origRoot conf file del with
  | ok t =>
    simp only [hres] at h
    cases hc : ap_xsendfile_get_compressed_filepath env rin t with
    | normal q rq dq =>
      simp only [hc] at h
      injection h with h1 h2 h3
      rw [← h2]
      exact ccm_sentinels env rin t q rq dq hc
    | procExit c =>
      simp only [hc] at h
      exact FilepathResult.noConfusion h
  | fail s2 =>
    rw [hres] at h
    exact FilepathResult.noConfusion h
  | undef =>
    rw [hres] at h
    exact FilepathResult.noConfusion h

/-- The engaged part of the filter never reintroduces a sentinel
header: its output request carries exactly the sentinel headers of
its input request, on every exit path. -/
theorem engage_sentinels (env : FilterEnv) (conf : Conf) (r : Request)
    (file : String) (del : Bool) :
    sentinelsOf (xsendfile_engage env conf r file del).2 = sentinelsOf r := by
  have hbase : sentinelsOf (unsetCLCE { r with eosSent := false })
      = sentinelsOf r := rfl
  simp only [xsendfile_engage]
  cases hdec : (if conf.unescape ≠ Tri.disabled then env.unescapeUrl file
      else Except.ok file) with
  | error e => simpa using hbase
  | ok decoded =>
    simp only
    cases hfp : ap_xsendfile_get_filepath env conf decoded del
        (unsetCLCE { r with eosSent := false }) with
    | undef r2 =>
      simp only
      rw [get_filepath_undef_req env conf decoded del _ r2 hfp]
      exact hbase
    | fail s r2 =>
      simp only
      rw [get_filepath_fail_req env conf decoded del _ s r2 hfp]
      exact hbase
    | procExit c => simpa using hbase
    | ok translated r2 dc =>
      have hr2 : sentinelsOf r2 = sentinelsOf r :=
        (get_filepath_ok_sentinels env conf decoded del _ translated r2 dc
          hfp).trans hbase
      by_cases ho : env.openOk translated = false
      · simp only [ho, if_true]
        exact hr2
      · simp only [ho, if_false]
        cases hfi : env.fileInfo translated with
        | none => exact hr2
        | some fi =>
          simp only
          by_cases hft : fi.filetype ≠ FileType.reg
          · rw [if_pos hft]
            exact hr2
          · rw [if_neg hft]
            have hr3 : sentinelsOf (setContentLength
                (etagUpdate env conf (lmUpdate env conf fi (updateFinfo r2 fi)))
                fi.size) = sentinelsOf r2 := by
              have e1 : sentinelsOf (setContentLength
                  (etagUpdate env conf (lmUpdate env conf fi (updateFinfo r2 fi)))
                  fi.size)
                  = sentinelsOf (etagUpdate env conf
                      (lmUpdate env conf fi (updateFinfo r2 fi))) := rfl
              rw [e1, sentinelsOf_etagUpdate, sentinelsOf_lmUpdate]
              rfl
            by_cases hm : env.meetsConditions ≠ STATUS_OK
            · rw [if_pos hm]
              exact (hr3.trans hr2 : _)
            · rw [if_neg hm]
              exact hr3.trans hr2

/-- Claim C4 counterexample: the claim fails as stated.  A request
that the filter skips (here: status 500) keeps its `X-SENDFILE`
header — the four `apr_table_unset` calls sit after the activation
check of lines 618-628. -/
theorem filter_skip_keeps_sentinel :
    req4.headers_out.xsendfile = some "/etc/passwd"
    ∧ (ap_xsendfile_output_filter env0 conf0 conf0 req4).1
      = FilterResult.passThrough
    ∧ (ap_xsendfile_output_filter env0 conf0 conf0 req4).2.headers_out.xsendfile
      = some "/etc/passwd" := ⟨rfl, rfl, rfl⟩

/-- Claim C4 as amended: for every request that passes the filter's
activation check (status OK, not a sub-request, not the default
handler), all four sentinel headers — `X-SENDFILE` and
`X-SENDFILE-TEMPORARY` in both the primary and the error-path header
set — are absent from the request state the filter returns, whatever
the outcome. -/
theorem filter_active_clears_sentinels (env : FilterEnv)
    (sconf dconf : Conf) (r : Request)
    (h1 : r.status = HTTP_OK) (h2 : r.isSubreq = false)
    (h3 : r.handlerIsDefault = false) :
    sentinelFree (ap_xsendfile_output_filter env sconf dconf r).2 := by
  simp only [ap_xsendfile_output_filter]
  rw [if_neg (by simp [h1, h2, h3])]
  by_cases he : emptyOpt (scanHeaders r).1
  · rw [if_pos he]
    exact ⟨rfl, rfl, rfl, rfl⟩
  · rw [if_neg he]
    have h4 : sentinelsOf ((xsendfile_engage env
        (xsendfile_config_merge sconf dconf) (clearSentinels r)
        ((scanHeaders r).1.getD "") (scanHeaders r).2).2)
        = (none, none, none, none) :=
      (engage_sentinels env (xsendfile_config_merge sconf dconf)
        (clearSentinels r) ((scanHeaders r).1.getD "")
        (scanHeaders r).2).trans rfl
    exact ⟨congrArg (fun t => t.1) h4, congrArg (fun t => t.2.1) h4,
      congrArg (fun t => t.2.2.1) h4, congrArg (fun t => t.2.2.2) h4⟩

/-- Witness for the amended C4 at a concrete engaged request. -/
theorem filter_active_clears_sentinels_witness :
    req4w.status = HTTP_OK ∧ req4w.isSubreq = false
    ∧ req4w.handlerIsDefault = false
    ∧ sentinelFree (ap_xsendfile_output_filter env0 conf0 conf0 req4w).2 :=
  ⟨rfl, rfl, rfl,
   filter_active_clears_sentinels env0 conf0 conf0 req4w rfl rfl rfl⟩

/-- For a request that passes the activation check, the filter reduces
to the sentinel scan followed by either pass-through or engagement. -/
theorem filter_active_eq (env : FilterEnv) (sconf dconf : Conf)
    (r : Request) (h1 : r.status = HTTP_OK) (h2 : r.isSubreq = false)
    (h3 : r.handlerIsDefault = false) :
    ap_xsendfile_output_filter env sconf dconf r
      = if emptyOpt (scanHeaders r).1 = true
        then (FilterResult.passThrough, clearSentinels r)
        else xsendfile_engage env (xsendfile_config_merge sconf dconf)
          (clearSentinels r) ((scanHeaders r).1.getD "") (scanHeaders r).2 := by
  have hact : ¬(r.status ≠ HTTP_OK ∨ r.isSubreq = true
      ∨ r.handlerIsDefault = true) := by simp [h1, h2, h3]
  simp only [ap_xsendfile_output_filter]
  rw [if_neg hact]

/-- Emptying a sentinel slot that holds the empty string changes
neither observable of the scan: the emptiness of the scanned value and
the delete flag agree, and whenever the scan finds a non-empty value
the scanned value itself agrees. -/
theorem scan_slot_emptied (r : Request) (s : SentinelSlot)
    (hs : getSlot r s = some "") :
    emptyOpt (scanHeaders (setSlot r s none)).1 = emptyOpt (scanHeaders r).1
    ∧ (scanHeaders (setSlot r s none)).2 = (scanHeaders r).2
    ∧ (emptyOpt (scanHeaders r).1 = false →
        (scanHeaders (setSlot r s none)).1 = (scanHeaders r).1) := by
  have eT : emptyOpt (some "") = true := by decide
  have eN : emptyOpt (none : Option String) = true := rfl
  cases s with
  | priX =>
    have hs2 : r.headers_out.xsendfile = some "" := hs
    refine ⟨?_, ?_, fun _ => ?_⟩ <;>
      simp [scanHeaders, setSlot, hs2, eT, eN]
  | errX =>
    have hs2 : r.err_headers_out.xsendfile = some "" := hs
    by_cases c0 : emptyOpt r.headers_out.xsendfile = true <;>
      refine ⟨?_, ?_, fun _ => ?_⟩ <;>
        simp [scanHeaders, setSlot, hs2, c0, eT, eN]
  | priT =>
    have hs2 : r.headers_out.xsendfileTemporary = some "" := hs
    by_cases c0 : emptyOpt r.headers_out.xsendfile = true <;>
      by_cases c1 : emptyOpt r.err_headers_out.xsendfile = true <;>
        refine ⟨?_, ?_, fun _ => ?_⟩ <;>
          simp [scanHeaders, setSlot, hs2, c0, c1, eT, eN]
  | errT =>
    have hs2 : r.err_headers_out.xsendfileTemporary = some "" := hs
    by_cases c0 : emptyOpt r.headers_out.xsendfile = true <;>
      by_cases c1 : emptyOpt r.err_headers_out.xsendfile = true <;>
        by_cases c2 : emptyOpt r.headers_out.xsendfileTemporary = true <;>
          refine ⟨?_, ?_, fun hf => ?_⟩ <;>
            simp_all [scanHeaders, setSlot, hs2, eT, eN]

/-- Claim C10: for a request the filter actually processes, a sentinel
header slot holding the empty string behaves exactly as if the slot
were absent — the scan falls through to the next slot in order and the
filter's result is identical — and when every slot is absent or empty
the filter passes the response through, its only effect being the four
sentinel unset calls (a no-op on absent slots). -/
theorem scan_treats_empty_as_absent (env : FilterEnv) (sconf dconf : Conf)
    (r : Request) (s : SentinelSlot)
    (h1 : r.status = HTTP_OK) (h2 : r.isSubreq = false)
    (h3 : r.handlerIsDefault = false) :
    (getSlot r s = some "" →
       ap_xsendfile_output_filter env sconf dconf r
         = ap_xsendfile_output_filter env sconf dconf (setSlot r s none))
    ∧ ((∀ t : SentinelSlot, emptyOpt (getSlot r t) = true) →
       ap_xsendfile_output_filter env sconf dconf r
         = (FilterResult.passThrough, clearSentinels r)) := by
  constructor
  · intro hs
    obtain ⟨hempty, hdel, hne⟩ := scan_slot_emptied r s hs
    have hclear : clearSentinels (setSlot r s none) = clearSentinels r := by
      cases s <;> rfl
    have hstat : (setSlot r s none).status = r.status := by cases s <;> rfl
    have hsub : (setSlot r s none).isSubreq = r.isSubreq := by cases s <;> rfl
    have hhd : (setSlot r s none).handlerIsDefault = r.handlerIsDefault := by
      cases s <;> rfl
    rw [filter_active_eq env sconf dconf r h1 h2 h3,
      filter_active_eq env sconf dconf (setSlot r s none)
        (hstat.trans h1) (hsub.trans h2) (hhd.trans h3)]
    by_cases hf : emptyOpt (scanHeaders r).1 = true
    · rw [if_pos hf, if_pos (hempty.trans hf), hclear]
    · have hf3 : emptyOpt (scanHeaders r).1 = false := by
        revert hf
        cases emptyOpt (scanHeaders r).1 <;> simp
      have hf2 : ¬(emptyOpt (scanHeaders (setSlot r s none)).1 = true) := by
        rw [hempty]
        exact hf
      rw [if_neg hf, if_neg hf2, hclear, hne hf3, hdel]
  · intro hall
    have e0 : emptyOpt r.headers_out.xsendfile = true := hall SentinelSlot.priX
    have e1 : emptyOpt r.err_headers_out.xsendfile = true :=
      hall SentinelSlot.errX
    have e2 : emptyOpt r.headers_out.xsendfileTemporary = true :=
      hall SentinelSlot.priT
    have e3 : emptyOpt r.err_headers_out.xsendfileTemporary = true :=
      hall SentinelSlot.errT
    have hempty : emptyOpt (scanHeaders r).1 = true := by
      simp [scanHeaders, e0, e1, e2, e3]
    rw [filter_active_eq env sconf dconf r h1 h2 h3, if_pos hempty]

/-- Witness for C10 at a request whose only sentinel slot holds the
empty string. -/
theorem scan_treats_empty_as_absent_witness :
    req10.status = HTTP_OK ∧ getSlot req10 SentinelSlot.priX = some ""
    ∧ ((getSlot req10 SentinelSlot.priX = some "" →
         ap_xsendfile_output_filter env0 conf0 conf0 req10
           = ap_xsendfile_output_filter env0 conf0 conf0
               (setSlot req10 SentinelSlot.priX none))
       ∧ ((∀ t : SentinelSlot, emptyOpt (getSlot req10 t) = true) →
         ap_xsendfile_output_filter env0 conf0 conf0 req10
           = (FilterResult.passThrough, clearSentinels req10))) :=
  ⟨rfl, rfl,
   scan_treats_empty_as_absent env0 conf0 conf0 req10 SentinelSlot.priX
     rfl rfl rfl⟩

end XSendfile
